import Mathlib

/-!
Verification of the session/connection lifecycle manager of `page`
(src/neovim.rs): the notification bridge, the instance registry, the
buffer title manager, the spawn-path session establisher, the process
spawner's config resolution, and transport selection.

Each definition is a shallow embedding of the corresponding Rust item;
source locations are given in the doc comments.  External collaborators
(the RPC client library `neovim_lib`, the standard library's socket
address parser, the filesystem) are modelled as explicit parameters or
as oracle functions.
-/

namespace Page

/-- Msgpack-style values as exposed by the RPC client library
(`neovim_lib::Value` = `rmpv::Value`); only the variants and accessors
the code under verification uses. -/
inductive Value where
  | nil : Value
  | boolean : Bool → Value
  | int : Int → Value
  | str : String → Value
  | arr : List Value → Value

/-- `Value::as_str`: `Some` exactly on string values. -/
def Value.as_str : Value → Option String
  | .str s => some s
  | _ => none

/-- `Value::as_u64`: `Some` exactly on integers representable as `u64`,
i.e. nonnegative ones. -/
def Value.as_u64 : Value → Option Nat
  | .int i => if 0 ≤ i then some i.toNat else none
  | _ => none

/-- `Value::as_array`: `Some` exactly on array values. -/
def Value.as_array : Value → Option (List Value)
  | .arr vs => some vs
  | _ => none

/-- src/neovim.rs 319-323: the typed notifications that can arrive from
the neovim side. -/
inductive NotificationFromNeovim where
  | FetchPart : NotificationFromNeovim
  | FetchLines : Nat → NotificationFromNeovim
  | BufferClosed : NotificationFromNeovim
deriving DecidableEq

/-- src/neovim.rs 349-373, `NotificationReceiver::handle_notify`.
The result `some ev` means the typed event `ev` is sent to the consumer
queue; `none` means the notification is dropped (missing or non-string
or foreign leading session id, or unrecognized notification name). -/
def handle_notify (self_page_id notification : String) (args : List Value) :
    Option NotificationFromNeovim :=
  match (args.get? 0).bind Value.as_str with
  | none => none
  | some page_id =>
    if page_id ≠ self_page_id then none
    else
      match notification with
      | "page_fetch_lines" =>
        match (args.get? 1).bind Value.as_u64 with
        | some lines_count => some (.FetchLines lines_count)
        | none => some .FetchPart
      | "page_buffer_closed" => some .BufferClosed
      | _ => none

/-- Claim C3: an inbound notification whose leading session-id argument
is a string different from the current invocation's id is dropped and
never reaches the consumer queue, whatever the notification name is. -/
theorem foreign_session_id_dropped
    (self_page_id notification : String) (args : List Value)
    (v : Value) (pid : String)
    (h0 : args.get? 0 = some v) (hs : v.as_str = some pid)
    (hne : pid ≠ self_page_id) :
    handle_notify self_page_id notification args = none := by
  unfold handle_notify
  rw [h0]
  simp [hs, hne]

/-- Claim C3 witness: a concrete foreign-id event, with a recognized
name, is dropped. -/
theorem foreign_session_id_dropped_witness :
    handle_notify "me" "page_fetch_lines" [Value.str "other"] = none :=
  foreign_session_id_dropped "me" "page_fetch_lines" [Value.str "other"]
    (Value.str "other") "other" rfl rfl (by decide)

/-- Claim C7: a fetch-lines notification carrying the current session id
surfaces as a count-bearing fetch event when a line-count argument is
present, and as a generic fetch event when no second argument is
present; a buffer-closed notification carrying the current id surfaces
as the buffer-closed event. -/
theorem own_session_id_events :
    (∀ (self_page_id : String) (args : List Value) (cnt : Nat),
      (args.get? 0).bind Value.as_str = some self_page_id →
      (args.get? 1).bind Value.as_u64 = some cnt →
      handle_notify self_page_id "page_fetch_lines" args =
        some (.FetchLines cnt))
  ∧ (∀ (self_page_id : String) (args : List Value),
      (args.get? 0).bind Value.as_str = some self_page_id →
      (args.get? 1).bind Value.as_u64 = none →
      handle_notify self_page_id "page_fetch_lines" args =
        some .FetchPart)
  ∧ (∀ (self_page_id : String) (args : List Value),
      (args.get? 0).bind Value.as_str = some self_page_id →
      handle_notify self_page_id "page_buffer_closed" args =
        some .BufferClosed) := by
  refine ⟨?_, ?_, ?_⟩
  · intro self_page_id args cnt h0 h1
    unfold handle_notify
    rw [h0, h1]
    simp
  · intro self_page_id args h0 h1
    unfold handle_notify
    rw [h0, h1]
    simp
  · intro self_page_id args h0
    unfold handle_notify
    rw [h0]
    simp

/-- Claim C7 witness: concrete events with the current id. -/
theorem own_session_id_events_witness :
    handle_notify "me" "page_fetch_lines" [Value.str "me", Value.int 7] =
      some (.FetchLines 7)
  ∧ handle_notify "me" "page_fetch_lines" [Value.str "me"] =
      some .FetchPart
  ∧ handle_notify "me" "page_buffer_closed" [Value.str "me"] =
      some .BufferClosed :=
  ⟨own_session_id_events.1 "me" [Value.str "me", Value.int 7] 7 rfl rfl,
   own_session_id_events.2.1 "me" [Value.str "me"] rfl rfl,
   own_session_id_events.2.2 "me" [Value.str "me"] rfl⟩

/-- Claim C10: a notification with no arguments, or whose first argument
is not a string, is dropped like a foreign-id event: it never reaches
the queue and raises no error, for every notification name. -/
theorem missing_or_nonstring_id_dropped
    (self_page_id notification : String) (args : List Value)
    (h : (args.get? 0).bind Value.as_str = none) :
    handle_notify self_page_id notification args = none := by
  unfold handle_notify
  rw [h]

/-- Claim C10 witness: an empty argument list and a non-string first
argument are both dropped. -/
theorem missing_or_nonstring_id_dropped_witness :
    handle_notify "me" "page_buffer_closed" [] = none
  ∧ handle_notify "me" "page_fetch_lines" [Value.int 3] = none :=
  ⟨missing_or_nonstring_id_dropped "me" "page_buffer_closed" [] rfl,
   missing_or_nonstring_id_dropped "me" "page_fetch_lines" [Value.int 3] rfl⟩

/-! ## Session establisher, spawn path (src/neovim.rs 439-467) -/

/-- The distinction the establisher draws on `std::io::ErrorKind`
(src/neovim.rs 452): `NotFound` ("not yet present") against every other
error kind. -/
inductive IoErrKind where
  | notFound : IoErrKind
  | other : IoErrKind
deriving DecidableEq

/-- Result of the spawn-path establisher.  Both constructors record the
total number of `session_at_address` connection attempts performed;
`failed` additionally records the error kind carried into the panic. -/
inductive EstablishResult where
  | connected : Nat → EstablishResult
  | failed : Nat → IoErrKind → EstablishResult
deriving DecidableEq

/-- src/neovim.rs 447-466: the connect-retry loop of
`session_with_new_neovim_process`.  `conn j` is the outcome of the
`session_at_address` call number `j` (counting from 0, the session
itself elided to `Unit`), `i` is the loop counter of the source, and
`fuel` bounds the recursion: `none` models non-termination, and fuel
102 is proved sufficient below. -/
def connect_retry_loop (conn : Nat → Except IoErrKind Unit) :
    Nat → Nat → Option EstablishResult
  | 0, _ => none
  | fuel + 1, i =>
    match conn i with
    | .ok _ => some (.connected (i + 1))
    | .error .notFound =>
      if i = 100 then some (.failed (i + 1) .notFound)
      else connect_retry_loop conn fuel (i + 1)
    | .error .other => some (.failed (i + 1) .other)

/-- src/neovim.rs 447-466: the loop entered with `i = 0`. -/
def session_with_new_neovim_process (conn : Nat → Except IoErrKind Unit) :
    Option EstablishResult :=
  connect_retry_loop conn 102 0

theorem connect_retry_loop_reaches_success
    (conn : Nat → Except IoErrKind Unit) (k : Nat)
    (hk : k ≤ 100) (hfail : ∀ j, j < k → conn j = .error .notFound)
    (hok : conn k = .ok ()) :
    ∀ fuel i, i ≤ k → k - i < fuel →
      connect_retry_loop conn fuel i = some (.connected (k + 1)) := by
  intro fuel
  induction fuel with
  | zero => intro i _ h; omega
  | succ fuel ih =>
    intro i hik hfuel
    by_cases hi : i = k
    · subst hi
      unfold connect_retry_loop
      rw [hok]
    · have hlt : i < k := lt_of_le_of_ne hik hi
      have hfi : conn i = .error .notFound := hfail i hlt
      unfold connect_retry_loop
      rw [hfi]
      have h100 : ¬ i = 100 := by omega
      simp only [h100, if_false]
      exact ih (i + 1) (by omega) (by omega)

theorem connect_retry_loop_exhausts
    (conn : Nat → Except IoErrKind Unit)
    (hfail : ∀ j, conn j = .error .notFound) :
    ∀ fuel i, i ≤ 100 → 100 - i < fuel →
      connect_retry_loop conn fuel i = some (.failed 101 .notFound) := by
  intro fuel
  induction fuel with
  | zero => intro i _ h; omega
  | succ fuel ih =>
    intro i hi hfuel
    unfold connect_retry_loop
    rw [hfail i]
    by_cases h100 : i = 100
    · subst h100
      simp
    · simp only [h100, if_false]
      exact ih (i + 1) (by omega) (by omega)

theorem connect_retry_loop_terminates
    (conn : Nat → Except IoErrKind Unit) :
    ∀ fuel i, i ≤ 100 → 101 - i ≤ fuel →
      (connect_retry_loop conn fuel i).isSome = true := by
  intro fuel
  induction fuel with
  | zero => intro i h1 h2; omega
  | succ fuel ih =>
    intro i hi hfuel
    unfold connect_retry_loop
    cases hc : conn i with
    | ok u => simp
    | error k =>
      cases k with
      | notFound =>
        by_cases h100 : i = 100
        · simp [h100]
        · simp only [h100, if_false]
          exact ih (i + 1) (by omega) (by omega)
      | other => simp

/-- Claim C1 (amended): on the spawn path, if the derived address becomes
connectable after exactly k failed "not yet present" poll attempts with
k < 100, the establisher returns a connected session on attempt k + 1
and performs no further attempts; if the address never becomes
connectable, it fails fatally after exactly 101 attempts (the initial
attempt plus 100 retries) — not 100 — and the loop always terminates. -/
theorem establisher_spawn_retry_amended :
    (∀ (conn : Nat → Except IoErrKind Unit) (k : Nat),
      k < 100 → (∀ j, j < k → conn j = .error .notFound) →
      conn k = .ok () →
      session_with_new_neovim_process conn = some (.connected (k + 1)))
  ∧ (∀ conn : Nat → Except IoErrKind Unit,
      (∀ j, conn j = .error .notFound) →
      session_with_new_neovim_process conn = some (.failed 101 .notFound))
  ∧ (∀ conn : Nat → Except IoErrKind Unit,
      (session_with_new_neovim_process conn).isSome = true) := by
  refine ⟨?_, ?_, ?_⟩
  · intro conn k hk hfail hok
    exact connect_retry_loop_reaches_success conn k (by omega) hfail hok
      102 0 (by omega) (by omega)
  · intro conn hfail
    exact connect_retry_loop_exhausts conn hfail 102 0 (by omega) (by omega)
  · intro conn
    exact connect_retry_loop_terminates conn 102 0 (by omega) (by omega)

/-- Claim C1 counterexample: with a never-connectable target the code
performs 101 connection attempts before panicking, not 100 as claimed. -/
theorem establisher_hundred_attempts_counterexample :
    session_with_new_neovim_process (fun _ => .error .notFound) =
      some (.failed 101 .notFound)
  ∧ session_with_new_neovim_process (fun _ => .error .notFound) ≠
      some (.failed 100 .notFound) := by
  refine ⟨rfl, by decide⟩

/-- A target that becomes connectable on the fourth attempt. -/
def conn_ok_after_three : Nat → Except IoErrKind Unit :=
  fun j => if j < 3 then .error .notFound else .ok ()

/-- Claim C1 witness: with three failed polls the establisher connects on
attempt 4. -/
theorem establisher_spawn_retry_witness :
    session_with_new_neovim_process conn_ok_after_three =
      some (.connected 4) :=
  establisher_spawn_retry_amended.1 conn_ok_after_three 3 (by omega)
    (fun j hj => by unfold conn_ok_after_three; rw [if_pos hj]) rfl

/-! ## Buffer title manager (src/neovim.rs 146-165) -/

/-- src/neovim.rs 154: the specific "name collision" error description
tolerated by the rename retry loop. -/
def collision_descr : String := "0 - Failed to rename buffer"

/-- src/neovim.rs 148-149: the candidate (attempt number, title) pairs —
the plain title at attempt 0 chained with `title(n)` for n in the Rust
range `1..99`, i.e. n = 1, ..., 98. -/
def title_candidates (buf_title : String) : List (Nat × String) :=
  (0, buf_title) ::
    (List.range' 1 98).map
      (fun attempt_nr =>
        (attempt_nr, buf_title ++ "(" ++ toString attempt_nr ++ ")"))

/-- Outcome of `update_buffer_title`: a successful rename (followed by a
`redraw!`), a logged non-collision error, or silently running out of
candidates (the loop body falls through). -/
inductive TitleOutcome where
  | renamed : String → TitleOutcome
  | errorLogged : String → TitleOutcome
  | exhausted : TitleOutcome
deriving DecidableEq

/-- src/neovim.rs 150-164: the retry loop of `update_buffer_title`.
`rename name = none` models a successful `set_name` call and `some e` a
failed one with error description `e`.  Returns the outcome together
with the titles attempted, in order. -/
def update_title_go (rename : String → Option String) :
    List (Nat × String) → TitleOutcome × List String
  | [] => (.exhausted, [])
  | (attempt_nr, name) :: rest =>
    match rename name with
    | some e =>
      if 99 < attempt_nr ∨ e ≠ collision_descr then (.errorLogged e, [name])
      else
        let r := update_title_go rename rest
        (r.1, name :: r.2)
    | none => (.renamed name, [name])

/-- src/neovim.rs 146-165: `update_buffer_title` runs the loop over the
chained candidates. -/
def update_buffer_title (rename : String → Option String)
    (buf_title : String) : TitleOutcome × List String :=
  update_title_go rename (title_candidates buf_title)

theorem title_candidates_bounded (buf_title : String) :
    ∀ p ∈ title_candidates buf_title, p.1 ≤ 99 := by
  intro p hp
  rcases List.mem_cons.mp hp with h | h
  · subst h; exact Nat.zero_le 99
  · obtain ⟨n, hn, rfl⟩ := List.mem_map.mp h
    have := (List.mem_range'_1.mp hn).2
    omega

theorem update_title_go_all_collide (rename : String → Option String) :
    ∀ l : List (Nat × String),
      (∀ p ∈ l, p.1 ≤ 99 ∧ rename p.2 = some collision_descr) →
      update_title_go rename l = (.exhausted, l.map Prod.snd) := by
  intro l
  induction l with
  | nil => intro _; rfl
  | cons hd tl ih =>
    intro h
    obtain ⟨nr, name⟩ := hd
    obtain ⟨hle, hcol⟩ := h (nr, name) (by simp)
    unfold update_title_go
    rw [hcol]
    have hcond : ¬ (99 < nr ∨ collision_descr ≠ collision_descr) := by
      simp; omega
    simp only [if_neg hcond]
    rw [ih (fun p hp => h p (by simp [hp]))]
    simp

theorem update_title_go_first_success (rename : String → Option String) :
    ∀ (pre : List (Nat × String)) (c : Nat × String)
      (post : List (Nat × String)),
      (∀ p ∈ pre, p.1 ≤ 99 ∧ rename p.2 = some collision_descr) →
      rename c.2 = none →
      update_title_go rename (pre ++ c :: post) =
        (.renamed c.2, pre.map Prod.snd ++ [c.2]) := by
  intro pre
  induction pre with
  | nil =>
    intro c post _ hc
    obtain ⟨nr, name⟩ := c
    simp only [List.nil_append]
    unfold update_title_go
    rw [hc]
    simp
  | cons hd tl ih =>
    intro c post h hc
    obtain ⟨nr, name⟩ := hd
    obtain ⟨hle, hcol⟩ := h (nr, name) (by simp)
    simp only [List.cons_append]
    unfold update_title_go
    rw [hcol]
    have hcond : ¬ (99 < nr ∨ collision_descr ≠ collision_descr) := by
      simp; omega
    simp only [if_neg hcond]
    rw [ih c post (fun p hp => h p (by simp [hp])) hc]
    simp

theorem suffixed_title_ne_99 (buf_title : String) :
    ∀ n ∈ List.range' 1 98,
      ¬ (buf_title ++ "(" ++ toString n ++ ")" = buf_title ++ "(99)") := by
  intro n hn heq
  have hd := congrArg String.data heq
  simp only [String.data_append, List.append_assoc] at hd
  have hc := List.append_cancel_left hd
  have hall : ∀ m ∈ List.range' 1 98,
      ¬ (("(" : String).data ++ ((toString m).data ++ (")" : String).data) =
        ("(99)" : String).data) := by decide
  exact hall n hn hc

/-- Claim C2 (amended): `update_buffer_title` first attempts the exact
desired title, and on each name-collision failure retries with suffixed
titles "(1)" through "(98)" — not "(99)" — in increasing order, stopping
at the first success; if the plain title and all 98 suffixed titles are
taken, it gives up without ever attempting the "(99)"-suffixed title. -/
theorem update_buffer_title_amended :
    (∀ (buf_title : String) (rename : String → Option String)
        (pre : List (Nat × String)) (c : Nat × String)
        (post : List (Nat × String)),
      title_candidates buf_title = pre ++ c :: post →
      (∀ p ∈ pre, rename p.2 = some collision_descr) →
      rename c.2 = none →
      update_buffer_title rename buf_title =
        (.renamed c.2, pre.map Prod.snd ++ [c.2]))
  ∧ (∀ (buf_title : String) (rename : String → Option String),
      (∀ p ∈ title_candidates buf_title,
        rename p.2 = some collision_descr) →
      update_buffer_title rename buf_title =
        (.exhausted, (title_candidates buf_title).map Prod.snd))
  ∧ (∀ buf_title : String,
      buf_title ++ "(99)" ∉ (title_candidates buf_title).map Prod.snd) := by
  refine ⟨?_, ?_, ?_⟩
  · intro buf_title rename pre c post hsplit hpre hc
    unfold update_buffer_title
    rw [hsplit]
    refine update_title_go_first_success rename pre c post ?_ hc
    intro p hp
    refine ⟨title_candidates_bounded buf_title p ?_, hpre p hp⟩
    rw [hsplit]
    exact List.mem_append_left _ hp
  · intro buf_title rename hall
    unfold update_buffer_title
    exact update_title_go_all_collide rename _
      (fun p hp => ⟨title_candidates_bounded buf_title p hp, hall p hp⟩)
  · intro buf_title hmem
    unfold title_candidates at hmem
    rw [List.map_cons, List.map_map] at hmem
    rcases List.mem_cons.mp hmem with heq | hmap
    · have heq2 : buf_title ++ "(99)" = buf_title := heq
      have hl := congrArg String.length heq2
      rw [String.length_append] at hl
      have h4 : ("(99)" : String).length = 4 := rfl
      omega
    · obtain ⟨n, hn, heq⟩ := List.mem_map.mp hmap
      have heq2 : buf_title ++ "(" ++ toString n ++ ")" =
          buf_title ++ "(99)" := heq
      exact suffixed_title_ne_99 buf_title n hn heq2

/-- Claim C2 counterexample: when every rename fails with the collision
error, the attempted titles never include the "(99)"-suffixed one (the
last attempted suffix is "(98)"), contradicting the claim that suffixes
"(1)" through "(99)" are tried. -/
theorem title_suffix_99_counterexample :
    "out(99)" ∉
      (update_buffer_title (fun _ => some collision_descr) "out").2
  ∧ "out(98)" ∈
      (update_buffer_title (fun _ => some collision_descr) "out").2 := by
  refine ⟨by decide, by decide⟩

/-- Claim C2 witness: with "out" and "out(1)" taken, renaming succeeds as
"out(2)" after attempting exactly "out", "out(1)", "out(2)". -/
theorem update_buffer_title_witness :
    update_buffer_title
      (fun s => if s = "out" ∨ s = "out(1)" then some collision_descr
        else none) "out" =
      (.renamed "out(2)", ["out", "out(1)", "out(2)"]) :=
  update_buffer_title_amended.1 "out"
    (fun s => if s = "out" ∨ s = "out(1)" then some collision_descr
      else none)
    [(0, "out"), (1, "out(1)")] (2, "out(2)")
    ((List.range' 3 96).map
      (fun attempt_nr => (attempt_nr, "out" ++ "(" ++ toString attempt_nr ++ ")")))
    (by decide)
    (by intro p hp; fin_cases hp <;> rfl)
    (by decide)

/-! ## Instance registry (src/neovim.rs 82-116) -/

/-- src/neovim.rs 97: the old-style "key not found" error description. -/
def not_found_descr_old : String := "1 - Key \x27page_instance\x27 not found"

/-- src/neovim.rs 98: the new-style "key not found" error description. -/
def not_found_descr_new : String := "1 - Key not found: page_instance"

/-- The neovim-side state the registry operates against: the list of open
buffers (by numeric identity, in `list_bufs` order) and the outcome of a
`get_var` call per buffer and key — `Except.error e` models `Err` with
description `e`. -/
structure NvimState where
  bufs : List Nat
  getVar : Nat → String → Except String Value

/-- src/neovim.rs 82-88, `mark_buffer_as_instance`: sets the buffer-scoped
variable `page_instance` to the two-element string array
`[inst_name, inst_pty_path]` (the effect of a successful `set_var` on
the host's variable store). -/
def mark_buffer_as_instance (st : NvimState) (buffer : Nat)
    (inst_name inst_pty_path : String) : NvimState :=
  { st with
    getVar := fun b key =>
      if b = buffer ∧ key = "page_instance"
      then .ok (.arr [.str inst_name, .str inst_pty_path])
      else st.getVar b key }

/-- src/neovim.rs 103-104: the tag value decodes iff it is an array whose
element-wise `as_str` views form exactly a two-element `[Some, Some]`
slice. -/
def decode_instance_pair (v : Value) : Option (String × String) :=
  match v.as_array.map (fun a => a.map Value.as_str) with
  | some [some inst_name_found, some inst_pty_path] =>
    some (inst_name_found, inst_pty_path)
  | _ => none

/-- src/neovim.rs 90-116, the scan of `find_instance_buffer` over a buffer
list: a recognized "key not found" error is skipped, any other error is
fatal (`Except.error` models the panic), an undecodable or
different-named tag is skipped, and the first buffer whose tag carries
the searched name is returned with its sink path. -/
def find_instance_buffer_go (st : NvimState) (inst_name : String) :
    List Nat → Except String (Option (Nat × String))
  | [] => .ok none
  | buf :: rest =>
    match st.getVar buf "page_instance" with
    | .error e =>
      if e ≠ not_found_descr_old ∧ e ≠ not_found_descr_new
      then .error ("Error when getting instance mark: " ++ e)
      else find_instance_buffer_go st inst_name rest
    | .ok v =>
      match decode_instance_pair v with
      | some (inst_name_found, inst_pty_path) =>
        if inst_name = inst_name_found
        then .ok (some (buf, inst_pty_path))
        else find_instance_buffer_go st inst_name rest
      | none => find_instance_buffer_go st inst_name rest

/-- src/neovim.rs 90-116: `find_instance_buffer` scans `list_bufs()`. -/
def find_instance_buffer (st : NvimState) (inst_name : String) :
    Except String (Option (Nat × String)) :=
  find_instance_buffer_go st inst_name st.bufs

/-- A `get_var` outcome that is one of the two recognized "key not found"
errors. -/
def RecognizedNotFound (r : Except String Value) : Prop :=
  r = .error not_found_descr_old ∨ r = .error not_found_descr_new

/-- A `get_var` outcome the scan silently skips: a recognized "not found"
error, or a value that does not decode as a two-element string pair. -/
def SkippedRead (r : Except String Value) : Prop :=
  RecognizedNotFound r ∨ ∃ v, r = .ok v ∧ decode_instance_pair v = none

theorem find_go_cons_skip (st : NvimState) (inst_name : String)
    (b : Nat) (rest : List Nat)
    (hb : SkippedRead (st.getVar b "page_instance")) :
    find_instance_buffer_go st inst_name (b :: rest) =
      find_instance_buffer_go st inst_name rest := by
  conv_lhs => unfold find_instance_buffer_go
  rcases hb with hnf | ⟨v, hok, hdec⟩
  · rcases hnf with h1 | h1 <;> rw [h1] <;> simp
  · rw [hok]
    simp only [hdec]

theorem find_go_cons_fatal (st : NvimState) (inst_name : String)
    (b : Nat) (rest : List Nat) (e : String)
    (hb : st.getVar b "page_instance" = .error e)
    (h1 : e ≠ not_found_descr_old) (h2 : e ≠ not_found_descr_new) :
    find_instance_buffer_go st inst_name (b :: rest) =
      .error ("Error when getting instance mark: " ++ e) := by
  unfold find_instance_buffer_go
  rw [hb]
  simp [h1, h2]

theorem find_go_skips (st : NvimState) (inst_name : String) :
    ∀ l : List Nat,
      (∀ b ∈ l, SkippedRead (st.getVar b "page_instance")) →
      find_instance_buffer_go st inst_name l = .ok none := by
  intro l
  induction l with
  | nil => intro _; rfl
  | cons b rest ih =>
    intro h
    rw [find_go_cons_skip st inst_name b rest (h b (by simp))]
    exact ih (fun b2 hb2 => h b2 (by simp [hb2]))

theorem find_go_fatal (st : NvimState) (inst_name : String) :
    ∀ (pre : List Nat) (b : Nat) (post : List Nat) (e : String),
      (∀ b2 ∈ pre, SkippedRead (st.getVar b2 "page_instance")) →
      st.getVar b "page_instance" = .error e →
      e ≠ not_found_descr_old → e ≠ not_found_descr_new →
      find_instance_buffer_go st inst_name (pre ++ b :: post) =
        .error ("Error when getting instance mark: " ++ e) := by
  intro pre
  induction pre with
  | nil =>
    intro b post e _ hb h1 h2
    simp only [List.nil_append]
    exact find_go_cons_fatal st inst_name b post e hb h1 h2
  | cons hd tl ih =>
    intro b post e h hb h1 h2
    simp only [List.cons_append]
    rw [find_go_cons_skip st inst_name hd _ (h hd (by simp))]
    exact ih b post e (fun b2 hb2 => h b2 (by simp [hb2])) hb h1 h2

theorem find_go_mark (st : NvimState) (B : Nat) (n p : String) :
    ∀ l : List Nat, B ∈ l →
      (∀ b ∈ l, b ≠ B → RecognizedNotFound (st.getVar b "page_instance")) →
      find_instance_buffer_go (mark_buffer_as_instance st B n p) n l =
        .ok (some (B, p)) := by
  intro l
  induction l with
  | nil => intro h; simp at h
  | cons b rest ih =>
    intro hmem h
    by_cases hbB : b = B
    · subst hbB
      unfold find_instance_buffer_go
      have hv : (mark_buffer_as_instance st b n p).getVar b "page_instance"
          = .ok (.arr [.str n, .str p]) := by
        simp [mark_buffer_as_instance]
      rw [hv]
      simp [decode_instance_pair, Value.as_array, Value.as_str]
    · have hB : B ∈ rest := by
        rcases List.mem_cons.mp hmem with h1 | h1
        · exact absurd h1.symm hbB
        · exact h1
      have hnf : RecognizedNotFound (st.getVar b "page_instance") :=
        h b (by simp) hbB
      have hsame : (mark_buffer_as_instance st B n p).getVar b
          "page_instance" = st.getVar b "page_instance" := by
        simp [mark_buffer_as_instance, hbB]
      rw [find_go_cons_skip (mark_buffer_as_instance st B n p) n b rest
        (Or.inl (by rw [RecognizedNotFound, hsame]; exact hnf))]
      exact ih hB (fun b2 hb2 hne => h b2 (by simp [hb2]) hne)

/-- Claim C4: round-trip of the instance registry.  In a state where all
other buffers carry no tag, `mark(B, n, p)` followed by `find(n)` yields
`(B, p)`, and once B is removed from the open-buffer set, `find(n)`
yields nothing (and no error). -/
theorem mark_find_round_trip
    (st : NvimState) (B : Nat) (n p : String)
    (hmem : B ∈ st.bufs)
    (hothers : ∀ b ∈ st.bufs, b ≠ B →
      RecognizedNotFound (st.getVar b "page_instance")) :
    find_instance_buffer (mark_buffer_as_instance st B n p) n =
      .ok (some (B, p))
  ∧ find_instance_buffer
      { mark_buffer_as_instance st B n p with
        bufs := st.bufs.filter (fun b => b != B) } n = .ok none := by
  constructor
  · exact find_go_mark st B n p st.bufs hmem hothers
  · refine find_go_skips _ n _ ?_
    intro b hb
    have hb2 := List.mem_filter.mp hb
    have hbne : b ≠ B := by simpa using hb2.2
    have hsame : (mark_buffer_as_instance st B n p).getVar b
        "page_instance" = st.getVar b "page_instance" := by
      simp [mark_buffer_as_instance, hbne]
    rw [SkippedRead, hsame]
    exact Or.inl (hothers b hb2.1 hbne)

/-- Claim C4 witness: three open buffers, none tagged; tag buffer 2,
find it, then find nothing once buffer 2 is gone. -/
theorem mark_find_round_trip_witness :
    find_instance_buffer
      (mark_buffer_as_instance
        ⟨[1, 2, 3], fun _ _ => .error not_found_descr_old⟩ 2 "n" "/p") "n" =
      .ok (some (2, "/p"))
  ∧ find_instance_buffer
      { mark_buffer_as_instance
          ⟨[1, 2, 3], fun _ _ => .error not_found_descr_old⟩ 2 "n" "/p" with
        bufs := List.filter (fun b => b != 2) [1, 2, 3] } "n" = .ok none :=
  mark_find_round_trip
    ⟨[1, 2, 3], fun _ _ => .error not_found_descr_old⟩ 2 "n" "/p"
    (by decide) (fun b _ _ => Or.inl rfl)

/-- Claim C6: during `find(name)`'s scan, buffers whose tag read fails
with a recognized "key not found" description, and buffers whose tag
value does not decode as a two-element string pair, are silently
skipped — in particular a scan over only such buffers returns nothing
and never aborts — while the first read error outside the recognized
"not found" shapes aborts the scan fatally. -/
theorem find_error_classification :
    (∀ (st : NvimState) (inst_name : String),
      (∀ b ∈ st.bufs, SkippedRead (st.getVar b "page_instance")) →
      find_instance_buffer st inst_name = .ok none)
  ∧ (∀ (st : NvimState) (inst_name : String) (pre : List Nat) (b : Nat)
        (post : List Nat) (e : String),
      st.bufs = pre ++ b :: post →
      (∀ b2 ∈ pre, SkippedRead (st.getVar b2 "page_instance")) →
      st.getVar b "page_instance" = .error e →
      e ≠ not_found_descr_old → e ≠ not_found_descr_new →
      find_instance_buffer st inst_name =
        .error ("Error when getting instance mark: " ++ e)) := by
  constructor
  · intro st inst_name h
    exact find_go_skips st inst_name st.bufs h
  · intro st inst_name pre b post e hsplit hpre hb h1 h2
    unfold find_instance_buffer
    rw [hsplit]
    exact find_go_fatal st inst_name pre b post e hpre hb h1 h2

/-- An untagged five-buffer state: four reads fail with the recognized
"not found" descriptions and one returns an undecodable value. -/
def five_untagged_state : NvimState :=
  ⟨[1, 2, 3, 4, 5], fun b _ =>
    if b = 3 then .ok (.str "junk")
    else if b ≤ 2 then .error not_found_descr_old
    else .error not_found_descr_new⟩

/-- Claim C6 witness: `find` over five untagged buffers returns nothing
and does not abort. -/
theorem find_error_classification_witness :
    find_instance_buffer five_untagged_state "n" = .ok none :=
  find_error_classification.1 five_untagged_state "n"
    (by
      intro b hb
      fin_cases hb
      · exact Or.inl (Or.inl rfl)
      · exact Or.inl (Or.inl rfl)
      · exact Or.inr ⟨.str "junk", rfl, rfl⟩
      · exact Or.inl (Or.inr rfl)
      · exact Or.inl (Or.inr rfl))

/-! ## Transport selection (src/neovim.rs 537-543) -/

/-- The two transports `session_at_address` can construct. -/
inductive Transport where
  | tcp : Transport
  | unixSocket : Transport
deriving DecidableEq

/-- src/neovim.rs 537-543: `session_at_address` selects the transport by
whether the address parses as a socket address.  `socket_addr_parses`
models the success of Rust's `str::parse::<std::net::SocketAddr>`, a
standard-library routine external to this code (the spec's
"parseable as host:port"); the `new_tcp` / `new_unix_socket`
constructors themselves belong to the external RPC library. -/
def session_at_address (socket_addr_parses : String → Bool)
    (nvim_listen_addr : String) : Transport :=
  if socket_addr_parses nvim_listen_addr then .tcp else .unixSocket

/-- Claim C5: transport selection is a pure function of the address
string: an address parseable as host:port selects the TCP transport and
any other address string selects the filesystem-socket transport. -/
theorem transport_selection_pure
    (socket_addr_parses : String → Bool) (nvim_listen_addr : String) :
    (socket_addr_parses nvim_listen_addr = true →
      session_at_address socket_addr_parses nvim_listen_addr = .tcp)
  ∧ (socket_addr_parses nvim_listen_addr = false →
      session_at_address socket_addr_parses nvim_listen_addr =
        .unixSocket) := by
  constructor <;> intro h <;> simp [session_at_address, h]

/-- Claim C5 witness: a parseable address selects TCP; a filesystem path
selects the unix-socket transport. -/
theorem transport_selection_pure_witness :
    session_at_address (fun a => a == "127.0.0.1:8000") "127.0.0.1:8000" =
      .tcp
  ∧ session_at_address (fun a => a == "127.0.0.1:8000") "/tmp/nvim.sock" =
      .unixSocket :=
  ⟨(transport_selection_pure (fun a => a == "127.0.0.1:8000")
      "127.0.0.1:8000").1 (by decide),
   (transport_selection_pure (fun a => a == "127.0.0.1:8000")
      "/tmp/nvim.sock").2 (by decide)⟩

/-! ## Process spawner: config resolution (src/neovim.rs 489-534) -/

/-- Path join as `PathBuf::join` renders for the separator-free
components used here. -/
def join_path (dir sub : String) : String := dir ++ "/" ++ sub

/-- src/neovim.rs 514-534, `default_config_path`: the
`$XDG_CONFIG_HOME/page/init.vim` candidate if that file exists,
otherwise the `$HOME/.config/page/init.vim` candidate if that file
exists, otherwise nothing.  `file_exi p` models `Path::exists`;
`xdg_config_home` and `home` model the environment variables. -/
def default_config_path (file_exi : String → Bool)
    (xdg_config_home home : Option String) : Option String :=
  match xdg_config_home.bind (fun x =>
      let p := join_path x "page/init.vim"
      if file_exi p then some p else none) with
  | some p => some p
  | none =>
    home.bind (fun h =>
      let p := join_path h ".config/page/init.vim"
      if file_exi p then some p else none)

/-- src/neovim.rs 495: `opt.config.clone().or_else(default_config_path)` —
the explicit user-supplied path wins unconditionally, with no existence
check; the derived defaults are only consulted when it is absent. -/
def resolved_config_arg (opt_config : Option String)
    (file_exi : String → Bool) (xdg_config_home home : Option String) :
    Option String :=
  match opt_config with
  | some c => some c
  | none => default_config_path file_exi xdg_config_home home

/-- src/neovim.rs 489-505: the argument string built for the child nvim
process (before `shell_words::split`, an external tokenizer): the
message-suppression flag, the listen-address flag, the optional `-u`
config flag, and optional free-form extra arguments. -/
def spawn_child_nvim_args (opt_config opt_arguments : Option String)
    (file_exi : String → Bool) (xdg_config_home home : Option String)
    (nvim_listen_addr : String) : String :=
  let base := "--cmd \x27set shortmess+=I\x27 --listen " ++ nvim_listen_addr
  let with_config :=
    match resolved_config_arg opt_config file_exi xdg_config_home home with
    | some config => base ++ " -u " ++ config
    | none => base
  match opt_arguments with
  | some custom_args => with_config ++ " " ++ custom_args
  | none => with_config

/-- Claim C8 counterexample: with an explicit config path naming no
existing file while the config-home-derived file exists, the explicit
path is still chosen — the code performs no existence check on it,
contradicting "the first path naming an existing file wins". -/
theorem explicit_config_counterexample :
    resolved_config_arg (some "/missing.vim")
        (fun q => q == join_path "/xdg" "page/init.vim") (some "/xdg") none
      = some "/missing.vim"
  ∧ (fun q => q == join_path "/xdg" "page/init.vim") "/missing.vim" = false
  ∧ (fun q => q == join_path "/xdg" "page/init.vim")
      (join_path "/xdg" "page/init.vim") = true := by
  refine ⟨rfl, by decide, by decide⟩

/-- Claim C8 (amended): the child's configuration-file argument is the
explicit user-supplied path whenever one is given, with no existence
check; otherwise it is the config-home-derived path if that file
exists, else the home-directory-derived path if that file exists, and
the `-u` flag is omitted when neither derived file exists. -/
theorem config_resolution_amended :
    (∀ (file_exi : String → Bool) (xdg_config_home home : Option String)
        (c : String),
      resolved_config_arg (some c) file_exi xdg_config_home home = some c)
  ∧ (∀ (file_exi : String → Bool) (x : String) (home : Option String),
      file_exi (join_path x "page/init.vim") = true →
      resolved_config_arg none file_exi (some x) home =
        some (join_path x "page/init.vim"))
  ∧ (∀ (file_exi : String → Bool) (xdg_config_home : Option String)
        (h : String),
      (∀ x, xdg_config_home = some x →
        file_exi (join_path x "page/init.vim") = false) →
      file_exi (join_path h ".config/page/init.vim") = true →
      resolved_config_arg none file_exi xdg_config_home (some h) =
        some (join_path h ".config/page/init.vim"))
  ∧ (∀ (file_exi : String → Bool) (xdg_config_home home : Option String),
      (∀ x, xdg_config_home = some x →
        file_exi (join_path x "page/init.vim") = false) →
      (∀ h, home = some h →
        file_exi (join_path h ".config/page/init.vim") = false) →
      resolved_config_arg none file_exi xdg_config_home home = none
      ∧ ∀ nvim_listen_addr,
          spawn_child_nvim_args none none file_exi xdg_config_home home
            nvim_listen_addr =
          "--cmd \x27set shortmess+=I\x27 --listen " ++ nvim_listen_addr) := by
  refine ⟨fun _ _ _ _ => rfl, ?_, ?_, ?_⟩
  · intro file_exi x home hx
    simp [resolved_config_arg, default_config_path, hx]
  · intro file_exi xdg_config_home h hx hh
    cases xdg_config_home with
    | none => simp [resolved_config_arg, default_config_path, hh]
    | some x =>
      have := hx x rfl
      simp [resolved_config_arg, default_config_path, this, hh]
  · intro file_exi xdg_config_home home hx hh
    have hres : resolved_config_arg none file_exi xdg_config_home home =
        none := by
      cases xdg_config_home with
      | none =>
        cases home with
        | none => rfl
        | some h =>
          have := hh h rfl
          simp [resolved_config_arg, default_config_path, this]
      | some x =>
        have hx2 := hx x rfl
        cases home with
        | none => simp [resolved_config_arg, default_config_path, hx2]
        | some h =>
          have := hh h rfl
          simp [resolved_config_arg, default_config_path, hx2, this]
    refine ⟨hres, ?_⟩
    intro nvim_listen_addr
    simp [spawn_child_nvim_args, hres]

/-- Claim C8 witness: with no explicit path, an absent config-home file
and an existing home-derived file, the home-derived path is chosen; and
with neither derived file existing the flag is omitted. -/
theorem config_resolution_witness :
    resolved_config_arg none
        (fun q => q == join_path "/home/u" ".config/page/init.vim")
        (some "/xdg") (some "/home/u") =
      some (join_path "/home/u" ".config/page/init.vim")
  ∧ resolved_config_arg none (fun _ => false) (some "/xdg")
      (some "/home/u") = none :=
  ⟨config_resolution_amended.2.2.1
      (fun q => q == join_path "/home/u" ".config/page/init.vim")
      (some "/xdg") "/home/u"
      (by intro x hx; cases hx; decide) (by decide),
   (config_resolution_amended.2.2.2 (fun _ => false) (some "/xdg")
      (some "/home/u")
      (by intro x hx; rfl) (by intro h hh; rfl)).1⟩

/-! ## Instance focus (src/neovim.rs 127-143) -/

/-- The window/buffer view of the neovim state that `focus` touches:
the current window and buffer, the open windows in `list_wins` order,
and the buffer displayed by each window. -/
structure UIState where
  cur_win : Nat
  cur_buf : Nat
  wins : List Nat
  win_buf : Nat → Nat

/-- An RPC side effect issued by `focus_instance_buffer`. -/
inductive FocusEffect where
  | setCurrentWin : Nat → FocusEffect
  | setCurrentBuf : Nat → FocusEffect
deriving DecidableEq

/-- src/neovim.rs 127-143, `focus_instance_buffer`: if the target buffer
is not current, scan the open windows for the first one displaying it
and switch the current window there (an early return); in every other
case — no window displays it, or the buffer is already current — control
falls through to `set_current_buf` on the target.  Returns the issued
effects and the resulting state. -/
def focus_instance_buffer (st : UIState) (inst_buf : Nat) :
    List FocusEffect × UIState :=
  if st.cur_buf ≠ inst_buf then
    match st.wins.find? (fun w => st.win_buf w == inst_buf) with
    | some w =>
      ([.setCurrentWin w], { st with cur_win := w, cur_buf := st.win_buf w })
    | none => ([.setCurrentBuf inst_buf], { st with cur_buf := inst_buf })
  else
    ([.setCurrentBuf inst_buf], { st with cur_buf := inst_buf })

/-- A state whose current buffer is 5, shown in the single open window. -/
def ui_already_current : UIState :=
  { cur_win := 0, cur_buf := 5, wins := [0], win_buf := fun _ => 5 }

/-- Claim C9 counterexample: focusing the already-current buffer is not a
no-op at the command level — the code still issues a buffer-switch
naming the current buffer (though the resulting state is unchanged). -/
theorem focus_noop_counterexample :
    (focus_instance_buffer ui_already_current 5).1 = [.setCurrentBuf 5]
  ∧ (focus_instance_buffer ui_already_current 5).1 ≠ []
  ∧ (focus_instance_buffer ui_already_current 5).2 = ui_already_current :=
  ⟨rfl, by decide, rfl⟩

/-- Claim C9 (amended): when the target buffer is already the current
buffer, `focus_instance_buffer` issues no window switch and leaves the
current window and current buffer unchanged, but it does issue exactly
one buffer-switch command naming the already-current buffer. -/
theorem focus_already_current_amended (st : UIState) (b : Nat)
    (h : st.cur_buf = b) :
    focus_instance_buffer st b = ([.setCurrentBuf b], st) := by
  obtain ⟨w, cb, ws, wb⟩ := st
  simp only at h
  subst h
  simp [focus_instance_buffer]

/-- Claim C9 witness: the amended behavior at the concrete state. -/
theorem focus_already_current_witness :
    focus_instance_buffer ui_already_current 5 =
      ([.setCurrentBuf 5], ui_already_current) :=
  focus_already_current_amended ui_already_current 5 rfl

end Page
